import Mathlib

/-!
Shallow embedding of src/components.rs, the sensing core of an embedded
contact/touch detector: the sample counter, the 45000-slot circular sample
buffer with its two-phase debounce detection, the bounded detection-event
history, and the status-LED state machine.

Modelling conventions:
- Machine integers are Nat with explicit wrapping: usize arithmetic wraps
  mod 2 ^ 32 (the RP2040 target is 32-bit) and u8 arithmetic wraps mod
  256, the release-profile
  (overflow checks disabled) semantics the firmware ships with. Where a
  claim concerns trapping, note that a wrapped subtraction below is a
  panic under a debug profile instead.
- Slice indexing is bounds-checked in every profile, so an out-of-range
  access is a panic; panicking operations are modelled as returning none.
- GPIO pins are Booleans (true = pin driven high); logging has no effect
  on state and is dropped.
- The global BUFFERS and STATUS_LEDS cells and the critical sections that
  guard them are modelled by explicit state passing: an operation takes
  the state it touches and returns the updated state.
-/

namespace Components

/-- Modulus of usize on the crate's only compilation target, the RP2040
(a 32-bit Cortex-M0+, per the rp2040_hal and cortex_m imports): usize is
32-bit there, and increment's own documentation names u32::MAX as the
counter maximum. -/
def USIZE : Nat := 2 ^ 32

/-- Modulus of u8 values. -/
def U8MOD : Nat := 256

/-- Release-profile usize addition: wraps mod 2 ^ 32. -/
def usizeAdd (a b : Nat) : Nat := (a + b) % USIZE

/-- Release-profile usize subtraction (and Rust wrapping_sub): wraps
mod 2 ^ 32. Inputs are valid usize values, below 2 ^ 32. -/
def usizeSub (a b : Nat) : Nat := (a + USIZE - b) % USIZE

/-- Release-profile u8 subtraction: wraps mod 256. Inputs are below 256. -/
def u8Sub (a b : Nat) : Nat := (a + U8MOD - b) % U8MOD

/-- usize checked_add of 1: some on success, none when the sum would pass
the maximum representable value. -/
def usizeCheckedAddOne (a : Nat) : Option Nat :=
  if a + 1 < USIZE then some (a + 1) else none

/-- All states for LEDs. -/
inductive StatusLedStates where
  | Normal
  | Alert
  | Error
  | Disabled
  deriving DecidableEq

/-- Controls the status LEDs on separate pins; each pin is modelled as a
Boolean (true = high). -/
structure StatusLedMulti where
  state : StatusLedStates
  normal_led : Bool
  alert_led : Bool
  error_led : Bool
  deriving DecidableEq

/-- set_error: deassert whichever of Normal or Alert was lit, assert the
error LED, and set the state to Error. The logged message is dropped. -/
def StatusLedMulti.set_error (s : StatusLedMulti) : StatusLedMulti :=
  let s1 :=
    match s.state with
    | .Normal => { s with normal_led := false }
    | .Alert => { s with alert_led := false }
    | .Error => s
    | .Disabled => s
  { s1 with error_led := true, state := .Error }

/-- set_alert: deassert whichever of Normal or Error was lit, assert the
alert LED, and set the state to Alert. The logged message is dropped. -/
def StatusLedMulti.set_alert (s : StatusLedMulti) : StatusLedMulti :=
  let s1 :=
    match s.state with
    | .Normal => { s with normal_led := false }
    | .Error => { s with error_led := false }
    | .Alert => s
    | .Disabled => s
  { s1 with alert_led := true, state := .Alert }

/-- Monotonic counter indicating the position of averaged samples. -/
structure SampleCounter where
  val : Nat
  deriving DecidableEq

@[simp]
theorem SampleCounter.mk_val (x : Nat) : (SampleCounter.mk x).val = x := rfl

/-- Get current counter value. -/
def SampleCounter.get_counter (c : SampleCounter) : Nat := c.val

/-- increment: the source only tests checked_add(1) for overflow, driving
the LEDs to Error (inside a critical section) when the add would overflow,
and never stores an incremented value back, so the counter field is left
unchanged on every path. -/
def SampleCounter.increment (c : SampleCounter) (leds : StatusLedMulti) :
    SampleCounter × StatusLedMulti :=
  if (usizeCheckedAddOne c.val).isNone then (c, leds.set_error) else (c, leds)

/-- Add with defined wrapping: if self.0 + rhs >= limit then
rhs - (limit - self.0) else self.0 + rhs, all in usize arithmetic. -/
def SampleCounter.wrapping_counter_add (c : SampleCounter) (rhs limit : Nat) : Nat :=
  if usizeAdd c.val rhs ≥ limit then usizeSub rhs (usizeSub limit c.val)
  else usizeAdd c.val rhs

/-- Subtract with defined wrapping: if self.0.wrapping_sub(rhs) >= limit
then limit - (rhs - self.0) else self.0 - rhs, all in usize arithmetic. -/
def SampleCounter.wrapping_counter_sub (c : SampleCounter) (rhs limit : Nat) : Nat :=
  if usizeSub c.val rhs ≥ limit then usizeSub limit (usizeSub rhs c.val)
  else usizeSub c.val rhs

/-- Index of a detection event, combined with voltage difference. -/
abbrev DetectionEvent : Type := SampleCounter × Nat

/-- Length of the longterm sample buffer. -/
def CAPACITY : Nat := 45000

/-- Initial averaged difference used for detecting contact. -/
def INIT_TRIGGER_DELTA : Nat := 160

/-- Various buffers used for managing signal samples. The circular sample
store is a function from physical index to stored byte; every access in
the operations below goes through the bounds-checked read/write wrappers,
so only indices in [0, CAPACITY) are ever consulted. -/
structure Buffers where
  longterm_buffer : Nat → Nat
  current_sample : SampleCounter
  detection_events : List (Option DetectionEvent)
  await_confirm : Bool

/-- Bounds-checked slice read; an out-of-range index panics (none). -/
def Buffers.read (b : Buffers) (i : Nat) : Option Nat :=
  if i < CAPACITY then some (b.longterm_buffer i) else none

/-- Bounds-checked slice write; an out-of-range index panics (none). -/
def Buffers.write (b : Buffers) (i v : Nat) : Option Buffers :=
  if i < CAPACITY then
    some { b with longterm_buffer := fun j => if j = i then v else b.longterm_buffer j }
  else none

/-- The freshly initialized Buffers value published by init: zeroed
storage, counter at 0, no events, debounce flag false. -/
def Buffers.initState : Buffers where
  longterm_buffer := fun _ => 0
  current_sample := ⟨0⟩
  detection_events := List.replicate 10 none
  await_confirm := false

/-- Insert a new sample at the head: write the sample at the wrapped
successor of the counter, then call increment (which may touch the LEDs
on overflow). The u8 argument is truncated mod 256 at the boundary. -/
def Buffers.insert (b : Buffers) (leds : StatusLedMulti) (sample : Nat) :
    Option (Buffers × StatusLedMulti) :=
  let new_head := b.current_sample.wrapping_counter_add 1 CAPACITY
  match b.write new_head (sample % U8MOD) with
  | none => none
  | some b1 =>
    let r := b1.current_sample.increment leds
    some ({ b1 with current_sample := r.1 }, r.2)

/-- Rust slice rotate_right(1): the element at index i moves to index
(i + 1) mod len, so the last element moves to the front. -/
def rotateRight1 {α : Type} : List α → List α
  | [] => []
  | x :: xs => (x :: xs).getLast (List.cons_ne_nil x xs) :: (x :: xs).dropLast

/-- add_detection_event: rotate the event ring right by one, then store
the pair (current counter, raw buffer byte at the unwrapped counter index)
at slot 0. -/
def Buffers.add_detection_event (b : Buffers) : Option Buffers :=
  match b.read b.current_sample.get_counter with
  | none => none
  | some v =>
    some { b with detection_events :=
      (rotateRight1 b.detection_events).set 0 (some (b.current_sample, v)) }

/-- detection_idx: counter - 1 in plain usize subtraction (wraps to
2 ^ 32 - 1 when the counter is 0; a debug profile panics there). -/
def Buffers.detection_idx (b : Buffers) : Nat :=
  usizeSub b.current_sample.get_counter 1

/-- detect_contact: the two-state debounce machine. Idle compares the slot
one before the raw counter index against the raw counter index; Armed
compares the slot two before against the raw counter index, and on a
confirmed drop raises Alert, appends a detection event and disarms. -/
def Buffers.detect_contact (b : Buffers) (leds : StatusLedMulti) :
    Option (Buffers × StatusLedMulti) :=
  if !b.await_confirm then
    match b.read (b.current_sample.wrapping_counter_sub 1 CAPACITY),
        b.read b.current_sample.get_counter with
    | some pv, some cv =>
      if u8Sub pv cv ≥ INIT_TRIGGER_DELTA then
        some ({ b with await_confirm := true }, leds)
      else some (b, leds)
    | _, _ => none
  else
    match b.read (b.current_sample.wrapping_counter_sub 2 CAPACITY),
        b.read b.current_sample.get_counter with
    | some pv, some cv =>
      if u8Sub pv cv ≥ INIT_TRIGGER_DELTA then
        match b.add_detection_event with
        | none => none
        | some b1 => some ({ b1 with await_confirm := false }, leds.set_alert)
      else some (b, leds)
    | _, _ => none

/-- One acquisition step as the excluded acquisition routine drives it:
insert the averaged sample, then run detect_contact. -/
def step (s : Buffers × StatusLedMulti) (sample : Nat) :
    Option (Buffers × StatusLedMulti) :=
  match Buffers.insert s.1 s.2 sample with
  | none => none
  | some s1 => Buffers.detect_contact s1.1 s1.2

/-- Run a whole sample sequence, one step per sample. -/
def runSeq : Buffers × StatusLedMulti → List Nat → Option (Buffers × StatusLedMulti)
  | s, [] => some s
  | s, x :: xs =>
    match step s x with
    | none => none
    | some s1 => runSeq s1 xs

/-- LED device in the Normal state with the green LED lit. -/
def ledNormal : StatusLedMulti := ⟨.Normal, true, false, false⟩

/-! Helper lemmas about the wrapping usize arithmetic. -/

theorem usizeAdd_eq_of_lt (a b : Nat) (h : a + b < USIZE) : usizeAdd a b = a + b := by
  simp only [usizeAdd, USIZE] at h ⊢
  omega

theorem usizeSub_eq_of_le (a b : Nat) (hba : b ≤ a) (h : a - b < USIZE) :
    usizeSub a b = a - b := by
  simp only [usizeSub, USIZE] at h ⊢
  omega

theorem usizeSub_eq_of_lt (a b : Nat) (hab : a < b) (h : b ≤ a + USIZE) :
    usizeSub a b = USIZE - (b - a) := by
  simp only [usizeSub, USIZE] at h ⊢
  omega

/-! Claim theorems. -/

/-- Claim C1 (code bug evaluated at the failing input): increment never
stores an incremented value. At counter 0, far below the maximum, the
counter is left at 0 and the LEDs are untouched, contradicting the claim
that the stored value becomes v + 1; only the overflow part of the claim
(value unchanged and the Error state raised at the maximum) matches the
code, as the second conjunct records. -/
theorem increment_never_advances_counter :
    SampleCounter.increment ⟨0⟩ ledNormal = (⟨0⟩, ledNormal) ∧
    SampleCounter.increment ⟨USIZE - 1⟩ ledNormal
      = (⟨USIZE - 1⟩, ⟨.Error, false, false, true⟩) := by
  decide

/-- Buffers state with the counter at the buffer capacity, the state the
intended design reaches after 45000 accepted samples. -/
def buffersAtCapacity : Buffers :=
  { Buffers.initState with current_sample := ⟨CAPACITY⟩ }

/-- Claim C2 (code bug evaluated at the failing input): detect_contact
indexes the circular array with the raw, un-wrapped counter value. With the
counter at 45000 the Idle branch reads index 45000, which is out of bounds
(a panic, modelled as none) instead of the in-range wrapped index
45000 mod 45000 = 0 the claim asserts. -/
theorem detect_contact_raw_index_out_of_bounds :
    Buffers.detect_contact buffersAtCapacity ledNormal = none := rfl

/-- Buffers state describing a recovery: the sample at the current slot
(index 1, value 96) is strictly greater than the sample one slot earlier
(index 0, value 0). -/
def buffersRecovery : Buffers :=
  { Buffers.initState with
    longterm_buffer := fun j => if j = 1 then 96 else 0
    current_sample := ⟨1⟩ }

/-- Claim C3 (code bug evaluated at the failing input): on the recovery
0 to 96 the Idle branch computes 0 - 96 with plain u8 wraparound, getting
160, which meets the 160 threshold, so detect_contact arms on a recovery
(under a debug profile this subtraction is a panic instead of a wrap). -/
theorem detect_contact_arms_on_recovery_wraparound :
    Option.map (fun p => p.1.await_confirm)
      (Buffers.detect_contact buffersRecovery ledNormal) = some true := by
  decide

/-- Armed Buffers state about to confirm: the sample two slots back
(index 3, value 200) exceeds the current sample (index 5, value 30) by the
confirming delta 170. -/
def buffersArmedForConfirm : Buffers :=
  { Buffers.initState with
    longterm_buffer := fun j => if j = 3 then 200 else if j = 5 then 30 else 0
    current_sample := ⟨5⟩
    await_confirm := true }

/-- Claim C4 (code bug evaluated at the failing input): on a confirmed
detection whose confirming difference is 200 - 30 = 170, the entry written
at slot 0 of the history is (counter, 30) - the raw sample byte at the
current slot - and not (counter, 170), the delta the claim and the
DetectionEvent documentation (voltage difference) require. -/
theorem detection_event_stores_raw_sample_not_delta :
    Option.map (fun p => p.1.detection_events.take 1)
      (Buffers.detect_contact buffersArmedForConfirm ledNormal)
      = some [some (⟨5⟩, 30)] ∧ (30 : Nat) ≠ 170 := by
  decide

/-- Claim C5 (code bug evaluated at the failing input): feeding the sample
sequence [200, 200, 30, 30] - for which the intended design meets the
first-stage drop condition at step 3 and the second-stage condition at
step 4, so exactly one alert should fire at step 4 - produces no alert at
all: because increment never advances the counter, every insert writes
slot 1 and both detection comparisons read the never-written slots 44999
and 0, so after the whole run the machine is still disarmed, the event
history is still empty and the LEDs still show Normal. -/
theorem debounce_sequence_fires_no_alert :
    Option.map (fun p => (p.1.await_confirm, p.1.detection_events, p.2.state))
      (runSeq (Buffers.initState, ledNormal) [200, 200, 30, 30])
      = some (false, List.replicate 10 none, StatusLedStates.Normal) := by
  decide

/-- Claim C6 counterexample: at capacity 2 ^ 32 - 2 with v = 2 ^ 32 - 5 and
delta = 4 - all representable usize values on the 32-bit target and within
the claim's ranges - the plain usize subtraction inside wrapping_counter_sub
wraps, and the round trip returns 2 ^ 32 - 3, not v. -/
theorem wrapping_roundtrip_fails_at_huge_capacity :
    USIZE - 5 < USIZE - 2 ∧ (4 : Nat) < USIZE - 2 ∧
    SampleCounter.wrapping_counter_sub
      ⟨SampleCounter.wrapping_counter_add ⟨USIZE - 5⟩ 4 (USIZE - 2)⟩ 4 (USIZE - 2)
      ≠ USIZE - 5 := by
  decide

/-- Claim C6 (amended): for every capacity with 2 * capacity ≤ 2 ^ 32 - so
that the usize arithmetic cannot wrap; the buffer's actual capacity 45000
qualifies - and all v and delta in [0, capacity), wrapping_counter_add and
wrapping_counter_sub return values in [0, capacity) and the subtraction
undoes the addition. -/
theorem wrapping_counter_add_sub_roundtrip (c : SampleCounter) (cap d : Nat)
    (hcap : 2 * cap ≤ USIZE) (hv : c.val < cap) (hd : d < cap) :
    c.wrapping_counter_add d cap < cap ∧
    c.wrapping_counter_sub d cap < cap ∧
    SampleCounter.wrapping_counter_sub ⟨c.wrapping_counter_add d cap⟩ d cap = c.val := by
  set v := c.val with hvdef
  have hadd : c.wrapping_counter_add d cap
      = (if v + d ≥ cap then v + d - cap else v + d) := by
    unfold SampleCounter.wrapping_counter_add
    rw [usizeAdd_eq_of_lt v d (by simp only [USIZE] at hcap ⊢; omega)]
    by_cases hcase : v + d ≥ cap
    · rw [if_pos hcase, if_pos hcase,
        usizeSub_eq_of_le cap v (le_of_lt hv) (by simp only [USIZE] at hcap ⊢; omega),
        usizeSub_eq_of_le d (cap - v) (by omega) (by simp only [USIZE] at hcap ⊢; omega)]
      omega
    · rw [if_neg hcase, if_neg hcase]
  have hsub : ∀ w : Nat, w < cap →
      SampleCounter.wrapping_counter_sub ⟨w⟩ d cap
        = (if w ≥ d then w - d else cap - (d - w)) := by
    intro w hw
    unfold SampleCounter.wrapping_counter_sub
    simp only [SampleCounter.mk_val]
    by_cases hcase : d ≤ w
    · rw [usizeSub_eq_of_le w d hcase (by simp only [USIZE] at hcap ⊢; omega),
        if_neg (by omega), if_pos hcase]
    · rw [usizeSub_eq_of_lt w d (by omega) (by simp only [USIZE] at hcap ⊢; omega),
        if_pos (by simp only [USIZE] at hcap ⊢; omega), if_neg (by omega),
        usizeSub_eq_of_le d w (by omega) (by simp only [USIZE] at hcap ⊢; omega),
        usizeSub_eq_of_le cap (d - w) (by omega) (by simp only [USIZE] at hcap ⊢; omega)]
  have hsubv := hsub v hv
  have haddlt : c.wrapping_counter_add d cap < cap := by
    rw [hadd]
    split <;> omega
  refine ⟨haddlt, ?_, ?_⟩
  · rw [hsubv]
    split <;> omega
  · rw [hsub _ haddlt, hadd]
    split <;> split <;> omega

/-- Claim C6 witness: the theorem applied at the buffer's actual capacity
45000 with v = 44999 and delta = 2. -/
theorem wrapping_counter_add_sub_roundtrip_witness :
    (2 * 45000 ≤ USIZE ∧ (⟨44999⟩ : SampleCounter).val < 45000 ∧ 2 < 45000) ∧
    ((⟨44999⟩ : SampleCounter).wrapping_counter_add 2 45000 < 45000 ∧
     (⟨44999⟩ : SampleCounter).wrapping_counter_sub 2 45000 < 45000 ∧
     SampleCounter.wrapping_counter_sub
       ⟨(⟨44999⟩ : SampleCounter).wrapping_counter_add 2 45000⟩ 2 45000
       = (⟨44999⟩ : SampleCounter).val) :=
  ⟨⟨by decide, by decide, by decide⟩,
    wrapping_counter_add_sub_roundtrip ⟨44999⟩ 45000 2 (by decide) (by decide) (by decide)⟩

/-- Claim C7 (code bug evaluated at the failing input): after one insert on
a freshly initialized Buffers the counter is still 0 (increment never
stores), so detection_idx computes 0 - 1, which wraps to 2 ^ 32 - 1 under
the release profile (and panics under debug); both the claimed counter ≥ 1
and the claimed in-range counter - 1 result fail. -/
theorem detection_idx_after_first_insert_underflows :
    Option.map (fun p => (p.1.current_sample.get_counter, p.1.detection_idx))
      (Buffers.insert Buffers.initState ledNormal 42)
      = some (0, USIZE - 1) := by
  decide

/-- Claim C8 counterexample: from the Error state, set_alert deasserts the
error LED, asserts the alert LED and sets the state to Alert, so Error is
exited by one of the provided transitions. -/
theorem set_alert_exits_error_state :
    StatusLedMulti.set_alert ⟨.Error, false, false, true⟩ = ⟨.Alert, false, true, false⟩ ∧
    StatusLedStates.Alert ≠ StatusLedStates.Error := by
  decide

/-- Claim C8 (amended): once the state is Error, no subsequent call to
set_error changes the state away from Error; set_alert, however, does exit
Error, moving the state to Alert. -/
theorem error_state_persists_under_set_error (s : StatusLedMulti)
    (h : s.state = StatusLedStates.Error) :
    s.set_error.state = StatusLedStates.Error ∧
    s.set_alert.state = StatusLedStates.Alert :=
  ⟨rfl, rfl⟩

/-- Claim C8 witness: the amended theorem applied to the Error-state LED
device. -/
theorem error_state_persists_under_set_error_witness :
    ((⟨.Error, false, false, true⟩ : StatusLedMulti).state = StatusLedStates.Error) ∧
    ((⟨.Error, false, false, true⟩ : StatusLedMulti).set_error.state = StatusLedStates.Error ∧
     (⟨.Error, false, false, true⟩ : StatusLedMulti).set_alert.state = StatusLedStates.Alert) :=
  ⟨rfl, error_state_persists_under_set_error ⟨.Error, false, false, true⟩ rfl⟩

/-- Claim C9: whenever the append of a confirmed detection succeeds (the
counter indexes in bounds) on a 10-slot history, the resulting history is
exactly the new event followed by the previous slots 0 through 8: the new
event is at slot 0, every retained event moved down one slot, the previous
slot-9 entry is gone, and the history still holds exactly 10 slots. -/
theorem add_detection_event_shifts_history (b : Buffers)
    (hc : b.current_sample.get_counter < CAPACITY)
    (hl : b.detection_events.length = 10) :
    b.add_detection_event = some { b with detection_events :=
      (some (b.current_sample, b.longterm_buffer b.current_sample.get_counter)
        :: b.detection_events.take 9) } ∧
    (some (b.current_sample, b.longterm_buffer b.current_sample.get_counter)
        :: b.detection_events.take 9).length = 10 := by
  have hset : (rotateRight1 b.detection_events).set 0
      (some (b.current_sample, b.longterm_buffer b.current_sample.get_counter))
      = (some (b.current_sample, b.longterm_buffer b.current_sample.get_counter)
        :: b.detection_events.take 9) := by
    cases hev : b.detection_events with
    | nil => rw [hev] at hl; simp at hl
    | cons x xs =>
      rw [hev] at hl
      show (some _ :: (x :: xs).dropLast) = _
      rw [List.dropLast_eq_take, hl]
  constructor
  · unfold Buffers.add_detection_event Buffers.read
    rw [if_pos hc]
    show some _ = _
    rw [hset]
  · simp [List.length_take, hl]

/-- Claim C9 witness: the theorem applied to the freshly initialized
Buffers value. -/
theorem add_detection_event_shifts_history_witness :
    (Buffers.initState.current_sample.get_counter < CAPACITY ∧
     Buffers.initState.detection_events.length = 10) ∧
    (Buffers.initState.add_detection_event = some { Buffers.initState with detection_events :=
      (some (Buffers.initState.current_sample,
          Buffers.initState.longterm_buffer Buffers.initState.current_sample.get_counter)
        :: Buffers.initState.detection_events.take 9) } ∧
     (some (Buffers.initState.current_sample,
          Buffers.initState.longterm_buffer Buffers.initState.current_sample.get_counter)
        :: Buffers.initState.detection_events.take 9).length = 10) :=
  ⟨⟨by decide, by decide⟩,
    add_detection_event_shifts_history Buffers.initState (by decide) (by decide)⟩

/-- Claim C10: whenever detect_contact returns normally, the sample array
and the counter are unchanged; when it ran in the Idle state the event
history is also unchanged (so at most the debounce flag moved); and when it
ran in the Armed state and did not confirm (the flag is still raised), every
field of Buffers is unchanged. -/
theorem detect_contact_frame_conditions (b : Buffers) (leds : StatusLedMulti)
    (b1 : Buffers) (l1 : StatusLedMulti)
    (h : b.detect_contact leds = some (b1, l1)) :
    b1.longterm_buffer = b.longterm_buffer ∧
    b1.current_sample = b.current_sample ∧
    (b.await_confirm = false → b1.detection_events = b.detection_events) ∧
    (b.await_confirm = true → b1.await_confirm = true → b1 = b) := by
  unfold Buffers.detect_contact at h
  cases hb : b.await_confirm
  · rw [if_pos (show (!b.await_confirm) = true by rw [hb]; rfl)] at h
    cases hr1 : b.read (b.current_sample.wrapping_counter_sub 1 CAPACITY) with
    | none => rw [hr1] at h; cases h
    | some pv =>
      rw [hr1] at h
      cases hr2 : b.read b.current_sample.get_counter with
      | none => rw [hr2] at h; cases h
      | some cv =>
        rw [hr2] at h
        dsimp only at h
        by_cases hth : u8Sub pv cv ≥ INIT_TRIGGER_DELTA
        · rw [if_pos hth] at h
          cases h
          exact ⟨rfl, rfl, fun _ => rfl, fun h3 _ => Bool.noConfusion h3⟩
        · rw [if_neg hth] at h
          cases h
          exact ⟨rfl, rfl, fun _ => rfl, fun h3 _ => Bool.noConfusion h3⟩
  · rw [if_neg (show ¬(!b.await_confirm) = true by
      rw [hb]; exact fun hx => Bool.noConfusion hx)] at h
    cases hr1 : b.read (b.current_sample.wrapping_counter_sub 2 CAPACITY) with
    | none => rw [hr1] at h; cases h
    | some pv =>
      rw [hr1] at h
      cases hr2 : b.read b.current_sample.get_counter with
      | none => rw [hr2] at h; cases h
      | some cv =>
        rw [hr2] at h
        dsimp only at h
        by_cases hth : u8Sub pv cv ≥ INIT_TRIGGER_DELTA
        · rw [if_pos hth] at h
          cases hadd : b.add_detection_event with
          | none => rw [hadd] at h; cases h
          | some b2 =>
            rw [hadd] at h
            unfold Buffers.add_detection_event at hadd
            rw [hr2] at hadd
            cases hadd
            cases h
            exact ⟨rfl, rfl, fun h3 => Bool.noConfusion h3, fun _ h4 => Bool.noConfusion h4⟩
        · rw [if_neg hth] at h
          cases h
          exact ⟨rfl, rfl, fun h3 => Bool.noConfusion h3, fun _ _ => rfl⟩

/-- Claim C10 witness: the theorem applied to the freshly initialized
Buffers value, on which detect_contact returns the state unchanged. -/
theorem detect_contact_frame_conditions_witness :
    (Buffers.detect_contact Buffers.initState ledNormal
      = some (Buffers.initState, ledNormal)) ∧
    (Buffers.initState.longterm_buffer = Buffers.initState.longterm_buffer ∧
     Buffers.initState.current_sample = Buffers.initState.current_sample ∧
     (Buffers.initState.await_confirm = false →
       Buffers.initState.detection_events = Buffers.initState.detection_events) ∧
     (Buffers.initState.await_confirm = true →
       Buffers.initState.await_confirm = true → Buffers.initState = Buffers.initState)) :=
  ⟨rfl, detect_contact_frame_conditions Buffers.initState ledNormal
    Buffers.initState ledNormal rfl⟩

end Components
